import Mathlib

/-!
Shallow embedding of `cars_rental.py`: a car-rental reservation engine with
a fleet of cars, per-car reservation lists, half-open date-range conflict
checking, and a thin facade.

Modelling conventions:
* Calendar instants (`datetime`) are `Int`; `timedelta(days=d)` is addition
  of `d` (one day = one unit; only ordering and addition of instants occur
  in the source, so this is order-faithful).
* `datetime.now()` is an explicit `now : Int` parameter of `reserve_car`.
* The `self.reservations : dict[int, List[Reservation]]` is a total
  function `Int → List Reservation`; `dict.get(car_id, [])` is application,
  and `setdefault(car_id, []).append(r)` is a pointwise update appending.
* Exceptions become `Except PyExc`; mutation becomes state passing, with
  the (possibly unchanged) inventory returned alongside the result.
-/

namespace CarsRental

/-- `CarType` enum: SEDAN, SUV, VAN. -/
inductive CarType where
  | sedan
  | suv
  | van
deriving DecidableEq, Repr

/-- `ReservationPeriod` dataclass: a half-open interval of instants. -/
structure ReservationPeriod where
  start_date : Int
  end_date : Int
deriving DecidableEq, Repr

/-- `ReservationPeriod.conflicts_with`:
`not (self.end_date <= other.start_date or self.start_date >= other.end_date)`. -/
def ReservationPeriod.conflicts_with (self other : ReservationPeriod) : Bool :=
  !(decide (self.end_date ≤ other.start_date) || decide (self.start_date ≥ other.end_date))

/-- `Car` dataclass. -/
structure Car where
  car_id : Int
  car_type : CarType
deriving DecidableEq, Repr

/-- `Reservation` dataclass. -/
structure Reservation where
  car_id : Int
  period : ReservationPeriod
deriving DecidableEq, Repr

/-- The Python exceptions raised by the module: `ValueError` (built-in)
and the module's own `NoAvailableCarsError`, each carrying its message. -/
inductive PyExc where
  | valueError (msg : String)
  | noAvailableCarsError (msg : String)
deriving DecidableEq, Repr

/-- The exact `ValueError` raised for `days <= 0`. -/
def invalidDurationError : PyExc :=
  .valueError "The number of reservation days must be greater than zero."

/-- The exact `ValueError` raised for a past start date. -/
def pastStartDateError : PyExc :=
  .valueError "The reservation start date cannot be in the past."

/-- The `NoAvailableCarsError` raised when no car fits. -/
def noAvailableCars : PyExc :=
  .noAvailableCarsError "No cars available for the requested type and dates"

/-- `InMemoryCarInventory` state: the fleet list and the reservations dict. -/
structure InMemoryCarInventory where
  cars : List Car
  reservations : Int → List Reservation

namespace InMemoryCarInventory

/-- `__init__`: empty fleet, empty reservations dict. -/
def init : InMemoryCarInventory :=
  { cars := [], reservations := fun _ => [] }

/-- `add_car`: `self.cars.append(car)`. -/
def add_car (self : InMemoryCarInventory) (car : Car) : InMemoryCarInventory :=
  { self with cars := self.cars ++ [car] }

/-- `is_car_reserved`: builds `[start, start + days)` and tests it for
conflict against every reservation stored under `car_id`. -/
def is_car_reserved (self : InMemoryCarInventory) (car_id : Int)
    (start_date : Int) (days : Int) : Bool :=
  let period : ReservationPeriod := ⟨start_date, start_date + days⟩
  (self.reservations car_id).any fun res => period.conflicts_with res.period

/-- The list-comprehension condition shared verbatim by
`check_availability` and `reserve_car`:
`car.car_type == car_type and not self.is_car_reserved(car.car_id, start_date, days)`. -/
def availablePred (self : InMemoryCarInventory) (car_type : CarType)
    (start_date : Int) (days : Int) (car : Car) : Bool :=
  decide (car.car_type = car_type) && !(self.is_car_reserved car.car_id start_date days)

/-- `check_availability`: `len(available_cars) > 0` over the filtered fleet. -/
def check_availability (self : InMemoryCarInventory) (car_type : CarType)
    (start_date : Int) (days : Int) : Bool :=
  decide (0 < (self.cars.filter (self.availablePred car_type start_date days)).length)

/-- The state change of a successful `reserve_car`:
`self.reservations.setdefault(car_id, []).append(reservation)`. -/
def commit (self : InMemoryCarInventory) (r : Reservation) : InMemoryCarInventory :=
  { self with
    reservations := fun i =>
      if i = r.car_id then self.reservations i ++ [r] else self.reservations i }

/-- `reserve_car`: validate `days`, validate `start_date` against `now`,
then take `available_cars[0]` of the filtered fleet (or raise). -/
def reserve_car (self : InMemoryCarInventory) (now : Int) (car_type : CarType)
    (start_date : Int) (days : Int) :
    Except PyExc Reservation × InMemoryCarInventory :=
  if days ≤ 0 then
    (.error invalidDurationError, self)
  else if start_date < now then
    (.error pastStartDateError, self)
  else
    match self.cars.filter (self.availablePred car_type start_date days) with
    | [] => (.error noAvailableCars, self)
    | car_to_reserve :: _ =>
      let period : ReservationPeriod := ⟨start_date, start_date + days⟩
      let reservation : Reservation := ⟨car_to_reserve.car_id, period⟩
      (.ok reservation, self.commit reservation)

end InMemoryCarInventory

/-- `CarRentalSystem` facade, holding its inventory. -/
structure CarRentalSystem where
  inventory : InMemoryCarInventory

namespace CarRentalSystem

/-- Facade `add_car`: builds the `Car` and delegates. -/
def add_car (self : CarRentalSystem) (car_id : Int) (car_type : CarType) :
    CarRentalSystem :=
  { self with inventory := self.inventory.add_car ⟨car_id, car_type⟩ }

/-- Facade `reserve_car`: direct delegation. -/
def reserve_car (self : CarRentalSystem) (now : Int) (car_type : CarType)
    (start_date : Int) (days : Int) :
    Except PyExc Reservation × CarRentalSystem :=
  let p := self.inventory.reserve_car now car_type start_date days
  (p.1, { self with inventory := p.2 })

/-- Facade `check_availability`: direct delegation. -/
def check_availability (self : CarRentalSystem) (car_type : CarType)
    (start_date : Int) (days : Int) : Bool :=
  self.inventory.check_availability car_type start_date days

end CarRentalSystem

/-- The calls a client can make on the inventory; `reserve_car` carries the
wall-clock instant `now` at which `datetime.now()` is read. -/
inductive Op where
  | addCar (car : Car)
  | checkAvailability (car_type : CarType) (start_date days : Int)
  | reserveCar (now : Int) (car_type : CarType) (start_date days : Int)

/-- State transition of one call (a query leaves the state as is). -/
def applyOp (inv : InMemoryCarInventory) : Op → InMemoryCarInventory
  | .addCar car => inv.add_car car
  | .checkAvailability _ _ _ => inv
  | .reserveCar now ct s d => (inv.reserve_car now ct s d).2

/-- Run a sequence of calls from a state. -/
def runOps (inv : InMemoryCarInventory) (ops : List Op) : InMemoryCarInventory :=
  ops.foldl applyOp inv

/-- No car's reservation list holds two conflicting periods. -/
def NoDoubleBooking (inv : InMemoryCarInventory) : Prop :=
  ∀ i : Int, (inv.reservations i).Pairwise
    fun a b => a.period.conflicts_with b.period = false

end CarsRental

namespace CarsRental

theorem conflicts_with_comm (a b : ReservationPeriod) :
    a.conflicts_with b = b.conflicts_with a := by
  simp only [ReservationPeriod.conflicts_with, ge_iff_le]
  rw [Bool.or_comm]

/-- C4: the conflict test is exactly the negated half-open disjointness
test, and ranges touching only at a boundary do not conflict. -/
theorem conflicts_with_spec (A B : ReservationPeriod) :
    (A.conflicts_with B = true ↔
      ¬(A.end_date ≤ B.start_date ∨ A.start_date ≥ B.end_date)) ∧
    (A.end_date = B.start_date → A.conflicts_with B = false) := by
  constructor
  · simp [ReservationPeriod.conflicts_with, not_or]
  · intro h
    simp [ReservationPeriod.conflicts_with, h]

/-- C4 witness: concrete adjacent ranges [0,2) and [2,5) do not conflict,
while [0,3) and [2,5) do. -/
theorem conflicts_with_spec_witness :
    ((⟨0, 2⟩ : ReservationPeriod).conflicts_with ⟨2, 5⟩ = true ↔
      ¬((2 : Int) ≤ 2 ∨ (0 : Int) ≥ 5)) ∧
    ((2 : Int) = 2 → (⟨0, 2⟩ : ReservationPeriod).conflicts_with ⟨2, 5⟩ = false) :=
  conflicts_with_spec ⟨0, 2⟩ ⟨2, 5⟩

theorem is_car_reserved_eq_false_iff (inv : InMemoryCarInventory) (carId s d : Int) :
    inv.is_car_reserved carId s d = false ↔
      ∀ res ∈ inv.reservations carId,
        (ReservationPeriod.mk s (s + d)).conflicts_with res.period = false := by
  simp [InMemoryCarInventory.is_car_reserved]

theorem availablePred_eq_true_iff (inv : InMemoryCarInventory) (ct : CarType)
    (s d : Int) (c : Car) :
    inv.availablePred ct s d c = true ↔
      c.car_type = ct ∧
        ∀ res ∈ inv.reservations c.car_id,
          (ReservationPeriod.mk s (s + d)).conflicts_with res.period = false := by
  rw [← is_car_reserved_eq_false_iff]
  simp [InMemoryCarInventory.availablePred]

theorem check_availability_iff (inv : InMemoryCarInventory) (ct : CarType)
    (s d : Int) :
    inv.check_availability ct s d = true ↔
      ∃ c ∈ inv.cars, c.car_type = ct ∧
        ∀ res ∈ inv.reservations c.car_id,
          (ReservationPeriod.mk s (s + d)).conflicts_with res.period = false := by
  rw [InMemoryCarInventory.check_availability, decide_eq_true_iff, List.length_pos]
  rw [Ne, List.filter_eq_nil_iff]
  push_neg
  constructor
  · rintro ⟨c, hc, hp⟩
    exact ⟨c, hc, (availablePred_eq_true_iff inv ct s d c).mp hp⟩
  · rintro ⟨c, hc, hp⟩
    exact ⟨c, hc, (availablePred_eq_true_iff inv ct s d c).mpr hp⟩

/-- C8: `check_availability` returns true iff some car of the category has
no reservation conflicting with [start, start+days); as an operation it
never changes the state; and the characterisation holds for every `days`
and `start_date`, validated or not. -/
theorem check_availability_spec (inv : InMemoryCarInventory) (ct : CarType)
    (s d : Int) :
    (inv.check_availability ct s d = true ↔
      ∃ c ∈ inv.cars, c.car_type = ct ∧
        ∀ res ∈ inv.reservations c.car_id,
          (ReservationPeriod.mk s (s + d)).conflicts_with res.period = false) ∧
    applyOp inv (Op.checkAvailability ct s d) = inv :=
  ⟨check_availability_iff inv ct s d, rfl⟩

/-- C10: a car of the requested category with an empty reservation list
makes `check_availability` return true for every start and duration. -/
theorem fresh_car_available (inv : InMemoryCarInventory) (ct : CarType)
    (s d : Int) (c : Car) (hc : c ∈ inv.cars) (ht : c.car_type = ct)
    (hr : inv.reservations c.car_id = []) :
    inv.check_availability ct s d = true := by
  refine (check_availability_iff inv ct s d).mpr ⟨c, hc, ht, ?_⟩
  rw [hr]
  intro res hres
  cases hres

/-- C10 witness: a fleet holding one just-added sedan reports sedan
availability even for a past start date and a non-positive duration. -/
theorem fresh_car_available_witness :
    (InMemoryCarInventory.init.add_car ⟨1, CarType.sedan⟩).check_availability
      CarType.sedan (-5) 0 = true :=
  fresh_car_available _ CarType.sedan (-5) 0 ⟨1, CarType.sedan⟩
    (by simp [InMemoryCarInventory.init, InMemoryCarInventory.add_car])
    rfl rfl

/-- C6: `reserve_car` fails with the invalid-duration error exactly when
`days <= 0`, regardless of the start date (the duration check runs first);
and for `days >= 1` it fails with the past-start-date error exactly when
the start is strictly before `now`. -/
theorem reserve_car_validation (inv : InMemoryCarInventory) (now : Int)
    (ct : CarType) (s d : Int) :
    ((inv.reserve_car now ct s d).1 = .error invalidDurationError ↔ d ≤ 0) ∧
    (1 ≤ d →
      ((inv.reserve_car now ct s d).1 = .error pastStartDateError ↔ s < now)) := by
  by_cases hd : d ≤ 0
  · refine ⟨by simp [InMemoryCarInventory.reserve_car, hd], fun h1 => absurd hd (by omega)⟩
  · by_cases hs : s < now
    · refine ⟨?_, fun _ => ?_⟩
      · simp [InMemoryCarInventory.reserve_car, hd, hs, pastStartDateError,
          invalidDurationError]
      · simp [InMemoryCarInventory.reserve_car, hd, hs]
    · refine ⟨?_, fun _ => ?_⟩ <;>
      · rw [InMemoryCarInventory.reserve_car, if_neg hd, if_neg hs]
        cases hfil : inv.cars.filter (inv.availablePred ct s d) with
        | nil =>
          simp [hfil, noAvailableCars, invalidDurationError, pastStartDateError, hd, hs]
        | cons c rest =>
          simp [hfil, hd, hs]

/-- C6 witness: with `days = 0` and a start one unit in the past of
`now = 0`, the duration error wins; with `days = 1` the past-start error
appears exactly because the start is before `now`. -/
theorem reserve_car_validation_witness :
    ((InMemoryCarInventory.init.reserve_car 0 CarType.sedan (-1) 0).1 =
        .error invalidDurationError ↔ (0 : Int) ≤ 0) ∧
    ((1 : Int) ≤ 1 →
      ((InMemoryCarInventory.init.reserve_car 0 CarType.sedan (-1) 1).1 =
        .error pastStartDateError ↔ (-1 : Int) < 0)) :=
  ⟨(reserve_car_validation InMemoryCarInventory.init 0 CarType.sedan (-1) 0).1,
   (reserve_car_validation InMemoryCarInventory.init 0 CarType.sedan (-1) 1).2⟩

theorem reserve_car_cases (inv : InMemoryCarInventory) (now : Int)
    (ct : CarType) (s d : Int) :
    (∃ r, inv.reserve_car now ct s d = (.ok r, inv.commit r) ∧
        r.period = ⟨s, s + d⟩) ∨
    (∃ e, inv.reserve_car now ct s d = (.error e, inv) ∧
        (e = invalidDurationError ∨ e = pastStartDateError ∨ e = noAvailableCars)) := by
  rw [InMemoryCarInventory.reserve_car]
  by_cases hd : d ≤ 0
  · rw [if_pos hd]
    exact Or.inr ⟨_, rfl, Or.inl rfl⟩
  · rw [if_neg hd]
    by_cases hs : s < now
    · rw [if_pos hs]
      exact Or.inr ⟨_, rfl, Or.inr (Or.inl rfl)⟩
    · rw [if_neg hs]
      cases hfil : inv.cars.filter (inv.availablePred ct s d) with
      | nil => exact Or.inr ⟨_, rfl, Or.inr (Or.inr rfl)⟩
      | cons c rest => exact Or.inl ⟨⟨c.car_id, ⟨s, s + d⟩⟩, rfl, rfl⟩

/-- C5: `reserve_car` either fully succeeds — it returns a reservation for
[start, start+days) and the only state change is appending exactly that
reservation to its car's list — or fully fails with one of the three
errors and returns the ledger unchanged. -/
theorem reserve_car_atomic (inv : InMemoryCarInventory) (now : Int)
    (ct : CarType) (s d : Int) :
    (∃ r, inv.reserve_car now ct s d = (.ok r, inv.commit r) ∧
        r.period = ⟨s, s + d⟩) ∨
    (∃ e, inv.reserve_car now ct s d = (.error e, inv) ∧
        (e = invalidDurationError ∨ e = pastStartDateError ∨ e = noAvailableCars)) :=
  reserve_car_cases inv now ct s d

/-- C7: the three failure values of `reserve_car` are pairwise distinct,
and every error it returns is one of those three. -/
theorem errors_distinguishable :
    invalidDurationError ≠ pastStartDateError ∧
    invalidDurationError ≠ noAvailableCars ∧
    pastStartDateError ≠ noAvailableCars ∧
    ∀ (inv : InMemoryCarInventory) (now : Int) (ct : CarType) (s d : Int)
      (e : PyExc), (inv.reserve_car now ct s d).1 = .error e →
        e = invalidDurationError ∨ e = pastStartDateError ∨ e = noAvailableCars := by
  refine ⟨by decide, by decide, by decide, ?_⟩
  intro inv now ct s d e he
  rcases reserve_car_cases inv now ct s d with ⟨r, hr, _⟩ | ⟨e2, he2, hcases⟩
  · rw [hr] at he
    cases he
  · rw [he2] at he
    cases he
    exact hcases

/-- C7 witness: the duration and past-start errors differ, and a concrete
failing call returns one of the three error values. -/
theorem errors_distinguishable_witness :
    invalidDurationError ≠ pastStartDateError ∧
    (invalidDurationError = invalidDurationError ∨
      invalidDurationError = pastStartDateError ∨
      invalidDurationError = noAvailableCars) :=
  ⟨errors_distinguishable.1,
   errors_distinguishable.2.2.2 InMemoryCarInventory.init 0 CarType.sedan 5 0
     invalidDurationError (by norm_num [InMemoryCarInventory.reserve_car])⟩

/-- Success observer: did the call return a `Reservation` rather than
raise? -/
def isOk : Except PyExc Reservation → Bool
  | .ok _ => true
  | .error _ => false

/-- A fleet holding exactly one sedan (car id 1) with no reservations. -/
def oneSedanInventory : InMemoryCarInventory :=
  InMemoryCarInventory.init.add_car ⟨1, CarType.sedan⟩

/-- C2 counterexample: on a one-sedan fleet, `check_availability` for
`days = 0` returns true (it does not validate), yet the immediately
following `reserve_car` on the same ledger fails (with the
invalid-duration error), so availability does not always imply a
successful reserve. -/
theorem check_reserve_counterexample :
    oneSedanInventory.check_availability CarType.sedan 5 0 = true ∧
    isOk (oneSedanInventory.reserve_car 0 CarType.sedan 5 0).1 = false := by
  constructor
  · decide
  · norm_num [InMemoryCarInventory.reserve_car, isOk]

/-- C2 amended: when the request is also valid for `reserve_car`
(`days >= 1` and the start not before `now`), `check_availability`
returning true guarantees that the immediately following `reserve_car` on
the unchanged ledger succeeds. -/
theorem check_implies_reserve_ok (inv : InMemoryCarInventory) (now : Int)
    (ct : CarType) (s d : Int) (hd : 1 ≤ d) (hs : now ≤ s)
    (h : inv.check_availability ct s d = true) :
    isOk (inv.reserve_car now ct s d).1 = true := by
  rw [InMemoryCarInventory.check_availability, decide_eq_true_iff,
    List.length_pos] at h
  rw [InMemoryCarInventory.reserve_car, if_neg (by omega), if_neg (by omega)]
  cases hfil : inv.cars.filter (inv.availablePred ct s d) with
  | nil => exact absurd hfil h
  | cons c rest => rfl

/-- C2 amended witness: concrete valid request on the one-sedan fleet. -/
theorem check_implies_reserve_ok_witness :
    (1 : Int) ≤ 3 ∧ (0 : Int) ≤ 5 ∧
    oneSedanInventory.check_availability CarType.sedan 5 3 = true ∧
    isOk (oneSedanInventory.reserve_car 0 CarType.sedan 5 3).1 = true :=
  ⟨by decide, by decide, by decide,
   check_implies_reserve_ok oneSedanInventory 0 CarType.sedan 5 3
     (by decide) (by decide) (by decide)⟩

theorem filter_head?_eq_find? {α : Type} (p : α → Bool) :
    ∀ l : List α, (l.filter p).head? = l.find? p
  | [] => rfl
  | a :: l => by
    by_cases hp : p a = true
    · simp [List.filter_cons, hp, List.find?_cons]
    · simp [List.filter_cons, hp, List.find?_cons, filter_head?_eq_find? p l]

/-- C3: for a valid request, `reserve_car` commits to the first car, in
fleet-insertion order, that matches the category and whose reservations
all fail the conflict test (`find?` of the availability predicate); when
no such car exists it fails with `NoAvailableCars`. -/
theorem reserve_car_first_fit (inv : InMemoryCarInventory) (now : Int)
    (ct : CarType) (s d : Int) (hd : 1 ≤ d) (hs : now ≤ s) :
    inv.reserve_car now ct s d =
      match inv.cars.find? (inv.availablePred ct s d) with
      | some c =>
          (.ok ⟨c.car_id, ⟨s, s + d⟩⟩, inv.commit ⟨c.car_id, ⟨s, s + d⟩⟩)
      | none => (.error noAvailableCars, inv) := by
  rw [InMemoryCarInventory.reserve_car, if_neg (by omega), if_neg (by omega),
    ← filter_head?_eq_find?]
  cases hfil : inv.cars.filter (inv.availablePred ct s d) with
  | nil => rfl
  | cons c rest => rfl

/-- C3 witness: concrete valid request on the one-sedan fleet. -/
theorem reserve_car_first_fit_witness :
    (1 : Int) ≤ 2 ∧ (0 : Int) ≤ 7 ∧
    oneSedanInventory.reserve_car 0 CarType.sedan 7 2 =
      match oneSedanInventory.cars.find?
          (oneSedanInventory.availablePred CarType.sedan 7 2) with
      | some c =>
          (.ok ⟨c.car_id, ⟨7, 7 + 2⟩⟩,
            oneSedanInventory.commit ⟨c.car_id, ⟨7, 7 + 2⟩⟩)
      | none => (.error noAvailableCars, oneSedanInventory) :=
  ⟨by decide, by decide,
   reserve_car_first_fit oneSedanInventory 0 CarType.sedan 7 2
     (by decide) (by decide)⟩

theorem reserve_car_ok_inversion (inv inv2 : InMemoryCarInventory) (now : Int)
    (ct : CarType) (s d : Int) (r : Reservation)
    (h : inv.reserve_car now ct s d = (.ok r, inv2)) :
    inv.is_car_reserved r.car_id s d = false ∧
      r.period = ⟨s, s + d⟩ ∧ inv2 = inv.commit r := by
  rw [InMemoryCarInventory.reserve_car] at h
  by_cases hd : d ≤ 0
  · rw [if_pos hd] at h
    cases h
  · rw [if_neg hd] at h
    by_cases hs : s < now
    · rw [if_pos hs] at h
      cases h
    · rw [if_neg hs] at h
      cases hfil : inv.cars.filter (inv.availablePred ct s d) with
      | nil =>
        rw [hfil] at h
        cases h
      | cons c rest =>
        rw [hfil] at h
        have hmem : c ∈ inv.cars.filter (inv.availablePred ct s d) := by
          rw [hfil]
          exact List.mem_cons_self c rest
        have hpred : inv.availablePred ct s d c = true :=
          (List.mem_filter.mp hmem).2
        have hres : inv.is_car_reserved c.car_id s d = false := by
          rw [InMemoryCarInventory.availablePred, Bool.and_eq_true] at hpred
          simpa using hpred.2
        obtain ⟨hr, hinv⟩ : r = ⟨c.car_id, ⟨s, s + d⟩⟩ ∧
            inv2 = inv.commit ⟨c.car_id, ⟨s, s + d⟩⟩ := by
          refine ⟨?_, ?_⟩ <;> cases h <;> rfl
        subst hr
        exact ⟨hres, rfl, by rw [hinv]⟩

theorem commit_reservations (inv : InMemoryCarInventory) (r : Reservation)
    (i : Int) :
    (inv.commit r).reservations i =
      if i = r.car_id then inv.reservations i ++ [r]
      else inv.reservations i := rfl

theorem applyOp_preserves_ndb (inv : InMemoryCarInventory) (op : Op)
    (h : NoDoubleBooking inv) : NoDoubleBooking (applyOp inv op) := by
  cases op with
  | addCar car => exact h
  | checkAvailability ct s d => exact h
  | reserveCar now ct s d =>
    show NoDoubleBooking (inv.reserve_car now ct s d).2
    rcases reserve_car_cases inv now ct s d with ⟨r, hr, hper⟩ | ⟨e, he, _⟩
    · rw [hr]
      have hinv := reserve_car_ok_inversion inv _ now ct s d r hr
      intro i
      show ((inv.commit r).reservations i).Pairwise _
      rw [commit_reservations]
      by_cases hi : i = r.car_id
      · subst hi
        rw [if_pos rfl, List.pairwise_append]
        refine ⟨h r.car_id, List.pairwise_singleton _ _, ?_⟩
        intro a ha b hb
        have hb1 : b = r := List.mem_singleton.mp hb
        have hnc := (is_car_reserved_eq_false_iff inv r.car_id s d).mp hinv.1
        rw [hb1, conflicts_with_comm, hinv.2.1]
        exact hnc a ha
      · simp only [if_neg hi]
        exact h i
    · rw [he]
      exact h

theorem runOps_preserves_ndb (ops : List Op) :
    ∀ inv : InMemoryCarInventory, NoDoubleBooking inv →
      NoDoubleBooking (runOps inv ops) := by
  induction ops with
  | nil => exact fun inv h => h
  | cons op ops ih =>
    intro inv h
    exact ih (applyOp inv op) (applyOp_preserves_ndb inv op h)

/-- C1: every ledger reachable from the initial empty inventory by any
sequence of `add_car`, `check_availability` and `reserve_car` calls keeps
every car's reservation list free of conflicting pairs. -/
theorem no_double_booking_reachable (ops : List Op) :
    NoDoubleBooking (runOps InMemoryCarInventory.init ops) :=
  runOps_preserves_ndb ops InMemoryCarInventory.init
    (fun _ => List.Pairwise.nil)

/-- C9: each facade operation of `CarRentalSystem` delegates to the
inventory operation with identical inputs, results, errors and state
change. -/
theorem facade_equivalence (sys : CarRentalSystem) (i : Int) (ct : CarType)
    (now s d : Int) :
    (sys.add_car i ct).inventory = sys.inventory.add_car ⟨i, ct⟩ ∧
    (sys.reserve_car now ct s d).1 = (sys.inventory.reserve_car now ct s d).1 ∧
    (sys.reserve_car now ct s d).2.inventory =
      (sys.inventory.reserve_car now ct s d).2 ∧
    sys.check_availability ct s d = sys.inventory.check_availability ct s d :=
  ⟨rfl, rfl, rfl, rfl⟩

end CarsRental
